import Mathlib

/-!
Shallow embedding of `src/backend/src/services/portabilityChecker.ts`
(`calculatePortabilityScore`) from the platform-readiness repository.

JavaScript strings are modelled as Lean `String`, regex `.test` calls as
executable scanners over the character list, `JSON.parse` as an executable
fuel-indexed JSON parser returning `Option Json` (a thrown `SyntaxError`
becomes `none`, and `calculatePortabilityScore` consequently returns
`Except.error` where the TypeScript function would throw), and JavaScript
truthiness of manifest lookups as `jsTruthy`.  JSON numbers only ever reach
the scorer through truthiness, so the embedding records just whether the
parsed number is zero.  The regex character class `\s` is modelled by its
ASCII members (space, tab, newline, carriage return, vertical tab, form feed).
-/

namespace PlatformReadiness

/-- Characters matched by the regex class `\s` (ASCII fragment). -/
def isJsSpace (c : Char) : Bool :=
  c = ' ' || c = '\t' || c = '\n' || c = '\x0d' || c = '\x0b' || c = '\x0c'

/-- Characters matched by the regex class `\w`, by code point: lowercase
97-122, uppercase 65-90, digits 48-57, underscore 95. -/
def isWordChar (c : Char) : Bool :=
  let n := c.toNat
  (97 ≤ n && n ≤ 122) || (65 ≤ n && n ≤ 90) || (48 ≤ n && n ≤ 57) || n == 95

/-- A single or double quote, the class `['"]`. -/
def isQuote (c : Char) : Bool :=
  c = '\'' || c = '"'

/-- Does `pat` occur as a contiguous run inside `cs`?  This is what a
JavaScript regex made only of literal characters tests. -/
def listHasSub (pat : List Char) : List Char → Bool
  | [] => pat.isEmpty
  | c :: rest => pat.isPrefixOf (c :: rest) || listHasSub pat rest

/-- String form of `listHasSub`. -/
def strHasSub (s pat : String) : Bool :=
  listHasSub pat.data s.data

/-- Does some suffix of `cs` satisfy `p`?  Used to model the implicit
"match starting anywhere" of JavaScript `RegExp.test`. -/
def anySuffix (p : List Char → Bool) : List Char → Bool
  | [] => p []
  | c :: rest => p (c :: rest) || anySuffix p rest

/-- Match of `\.listen\(\d{4}\)` starting at the head of `cs`. -/
def listenAt (cs : List Char) : Bool :=
  match cs with
  | '.' :: 'l' :: 'i' :: 's' :: 't' :: 'e' :: 'n' :: '(' :: d1 :: d2 :: d3 :: d4 :: ')' :: _ =>
      d1.isDigit && d2.isDigit && d3.isDigit && d4.isDigit
  | _ => false

/-- The regex `\.listen\(\d{4}\)` tested anywhere in `s`. -/
def listenTest (s : String) : Bool :=
  anySuffix listenAt s.data

/-- Match of `['"]/<p>['"]` starting at the head of `cs`: a quote, the
literal path `p`, then another (independent) quote. -/
def quotedAt (p : List Char) (cs : List Char) : Bool :=
  match cs with
  | q1 :: rest =>
      isQuote q1 && p.isPrefixOf rest &&
        (match rest.drop p.length with
         | q2 :: _ => isQuote q2
         | [] => false)
  | [] => false

/-- The regex `['"]\/health['"]` (or `healthz`) tested anywhere in `s`. -/
def quotedRouteTest (p : String) (s : String) : Bool :=
  anySuffix (quotedAt p.data) s.data

/-- Tail of `let\s+\w+Data\s*[:=]` after the word characters: the literal
`Data`, then `\s*`, then `:` or `=`. -/
def dataTailAt (cs : List Char) : Bool :=
  match cs with
  | 'D' :: 'a' :: 't' :: 'a' :: rest =>
      (match rest.dropWhile isJsSpace with
       | c :: _ => c = ':' || c = '='
       | [] => false)
  | _ => false

/-- After at least one word character has been consumed: either the
`Data\s*[:=]` tail starts here, or consume one more word character. -/
def wdScan : List Char → Bool
  | [] => false
  | c :: rest => dataTailAt (c :: rest) || (isWordChar c && wdScan rest)

/-- Match of `let\s+\w+Data\s*[:=]` starting at the head of `cs`. -/
def letDataAt (cs : List Char) : Bool :=
  match cs with
  | 'l' :: 'e' :: 't' :: c :: rest =>
      isJsSpace c &&
        (match rest.dropWhile isJsSpace with
         | d :: rest2 => isWordChar d && wdScan rest2
         | [] => false)
  | _ => false

/-- The regex `let\s+\w+Data\s*[:=]` tested anywhere in `s`. -/
def letDataTest (s : String) : Bool :=
  anySuffix letDataAt s.data

/-- JavaScript values produced by `JSON.parse`.  Numbers are observed by the
scorer only through truthiness, so just zero-ness is recorded. -/
inductive Json where
  | null : Json
  | bool (b : Bool) : Json
  | num (isZero : Bool) : Json
  | str (s : String) : Json
  | arr (elems : List Json) : Json
  | obj (fields : List (String × Json)) : Json

/-- JSON whitespace accepted between tokens. -/
def skipWs (cs : List Char) : List Char :=
  cs.dropWhile (fun c => c = ' ' || c = '\t' || c = '\n' || c = '\x0d')

/-- Value of one hex digit, by code point: digits 48-57 map to 0-9,
lowercase a-f (97-102) and uppercase A-F (65-70) map to 10-15. -/
def hexVal (c : Char) : Option Nat :=
  let n := c.toNat
  if 48 ≤ n && n ≤ 57 then some (n - 48)
  else if 97 ≤ n && n ≤ 102 then some (n - 87)
  else if 65 ≤ n && n ≤ 70 then some (n - 55)
  else none

/-- Parse the body of a JSON string literal (opening quote already
consumed), returning the decoded string and the remaining input.  A `\u`
escape that does not name a valid scalar (a lone surrogate) is replaced by
U+FFFD; the scorer never inspects such strings. -/
def parseStrBody : Nat → List Char → List Char → Option (String × List Char)
  | 0, _, _ => none
  | _ + 1, acc, '"' :: rest => some (String.mk acc.reverse, rest)
  | fuel + 1, acc, '\\' :: e :: rest =>
      match e with
      | '"' => parseStrBody fuel ('"' :: acc) rest
      | '\\' => parseStrBody fuel ('\\' :: acc) rest
      | '/' => parseStrBody fuel ('/' :: acc) rest
      | 'b' => parseStrBody fuel ('\x08' :: acc) rest
      | 'f' => parseStrBody fuel ('\x0c' :: acc) rest
      | 'n' => parseStrBody fuel ('\n' :: acc) rest
      | 'r' => parseStrBody fuel ('\x0d' :: acc) rest
      | 't' => parseStrBody fuel ('\t' :: acc) rest
      | 'u' =>
          (match rest with
           | h1 :: h2 :: h3 :: h4 :: rest2 =>
               (match hexVal h1, hexVal h2, hexVal h3, hexVal h4 with
                | some a, some b, some c, some d =>
                    let n := ((a * 16 + b) * 16 + c) * 16 + d
                    let ch := if n.isValidChar then Char.ofNat n else '�'
                    parseStrBody fuel (ch :: acc) rest2
                | _, _, _, _ => none)
           | _ => none)
      | _ => none
  | fuel + 1, acc, c :: rest =>
      if c.toNat < 32 then none else parseStrBody fuel (c :: acc) rest
  | _, _, [] => none

/-- Lex a JSON number (per the JSON grammar) from the head of `cs`,
returning whether its value is zero and the remaining input. -/
def parseNumLex (cs : List Char) : Option (Bool × List Char) :=
  let (cs1able) := if cs.head? = some '-' then cs.tail else cs
  match cs1able with
  | [] => none
  | c :: rest =>
      if !c.isDigit then none
      else
        let (intDigits, cs2) :=
          if c = '0' then ([c], rest)
          else (c :: rest.takeWhile Char.isDigit, rest.dropWhile Char.isDigit)
        let (fracDigits, cs3) :=
          match cs2 with
          | '.' :: r =>
              (r.takeWhile Char.isDigit, r.dropWhile Char.isDigit)
          | _ => ([], cs2)
        if cs2.head? = some '.' && fracDigits.isEmpty then none
        else
          let expOk :=
            match cs3 with
            | e :: r =>
                if e = 'e' || e = 'E' then
                  let r2 := if r.head? = some '+' || r.head? = some '-' then r.tail else r
                  if (r2.takeWhile Char.isDigit).isEmpty then none
                  else some (r2.dropWhile Char.isDigit)
                else some cs3
            | [] => some cs3
          match expOk with
          | none => none
          | some cs4 =>
              some ((intDigits ++ fracDigits).all (fun d => d = '0'), cs4)

mutual

/-- Parse one JSON value from the head of `cs` (leading whitespace
allowed), returning it with the remaining input. -/
def parseVal : Nat → List Char → Option (Json × List Char)
  | 0, _ => none
  | fuel + 1, cs =>
      match skipWs cs with
      | 'n' :: 'u' :: 'l' :: 'l' :: rest => some (Json.null, rest)
      | 't' :: 'r' :: 'u' :: 'e' :: rest => some (Json.bool true, rest)
      | 'f' :: 'a' :: 'l' :: 's' :: 'e' :: rest => some (Json.bool false, rest)
      | '"' :: rest =>
          (match parseStrBody (rest.length + 1) [] rest with
           | some (s, rest2) => some (Json.str s, rest2)
           | none => none)
      | '\x5b' :: rest =>
          (match skipWs rest with
           | '\x5d' :: rest2 => some (Json.arr [], rest2)
           | _ => parseArrRest fuel [] rest)
      | '\x7b' :: rest =>
          (match skipWs rest with
           | '\x7d' :: rest2 => some (Json.obj [], rest2)
           | _ => parseObjRest fuel [] rest)
      | cs1 =>
          (match parseNumLex cs1 with
           | some (isZero, rest) => some (Json.num isZero, rest)
           | none => none)

/-- Parse the elements of a non-empty JSON array (opening bracket already
consumed, at least one element pending). -/
def parseArrRest : Nat → List Json → List Char → Option (Json × List Char)
  | 0, _, _ => none
  | fuel + 1, acc, cs =>
      match parseVal fuel cs with
      | none => none
      | some (v, rest) =>
          match skipWs rest with
          | ',' :: rest2 => parseArrRest fuel (v :: acc) rest2
          | '\x5d' :: rest2 => some (Json.arr (v :: acc).reverse, rest2)
          | _ => none

/-- Parse the members of a non-empty JSON object (opening brace already
consumed, at least one member pending). -/
def parseObjRest : Nat → List (String × Json) → List Char → Option (Json × List Char)
  | 0, _, _ => none
  | fuel + 1, acc, cs =>
      match skipWs cs with
      | '"' :: rest =>
          (match parseStrBody (rest.length + 1) [] rest with
           | none => none
           | some (k, rest2) =>
               match skipWs rest2 with
               | ':' :: rest3 =>
                   (match parseVal fuel rest3 with
                    | none => none
                    | some (v, rest4) =>
                        match skipWs rest4 with
                        | ',' :: rest5 => parseObjRest fuel ((k, v) :: acc) rest5
                        | '\x7d' :: rest5 => some (Json.obj ((k, v) :: acc).reverse, rest5)
                        | _ => none)
               | _ => none)
      | _ => none

end

/-- The embedding of `JSON.parse`: `none` models a thrown `SyntaxError`. -/
def Json.parse (s : String) : Option Json :=
  match parseVal (s.length + 8) s.data with
  | some (v, rest) => if (skipWs rest).isEmpty then some v else none
  | none => none

/-- Last-wins lookup in an object's member list, matching the JavaScript
semantics of duplicate keys in `JSON.parse`. -/
def lookupLast (k : String) : List (String × Json) → Option Json
  | [] => none
  | (k1, v) :: rest =>
      match lookupLast k rest with
      | some v2 => some v2
      | none => if k1 = k then some v else none

/-- JavaScript property access `j[k]` for the keys the scorer uses:
`undefined` (here `none`) on anything that is not an object. -/
def Json.get (j : Json) (k : String) : Option Json :=
  match j with
  | Json.obj fields => lookupLast k fields
  | _ => none

/-- Optional-chained access `p?.[k]`. -/
def optGet (p : Option Json) (k : String) : Option Json :=
  p.bind (fun j => j.get k)

/-- JavaScript truthiness of a possibly-undefined value. -/
def jsTruthy : Option Json → Bool
  | none => false
  | some Json.null => false
  | some (Json.bool b) => b
  | some (Json.num isZero) => !isZero
  | some (Json.str s) => !s.isEmpty
  | some (Json.arr _) => true
  | some (Json.obj _) => true

/-- One repository file record (`RepoFile` in `src/backend/src/types.ts`);
the `type` field ('file' or 'directory') is named `ftype` here. -/
structure RepoFile where
  path : String
  content : String
  ftype : String
deriving DecidableEq

/-- The three severity labels of a `PortabilityResult`. -/
inductive Severity where
  | BLOCKING : Severity
  | WARNING : Severity
  | OK : Severity
deriving DecidableEq

/-- One fired rule's record (`PortabilityIssue` in the source). -/
structure PortabilityIssue where
  category : String
  impact : Int
  description : String
  blocker : Bool
deriving DecidableEq

/-- The scorer's result object (`PortabilityResult` in the source). -/
structure PortabilityResult where
  score : Int
  canPort : Bool
  severity : Severity
  issues : List PortabilityIssue
  recommendation : String
  estimatedEffort : String
deriving DecidableEq

/-- `pkg?.dependencies?.[name]`. -/
def dep (pkg : Option Json) (name : String) : Option Json :=
  optGet (optGet pkg "dependencies") name

/-- `pkg?.devDependencies?.[name]`. -/
def devDep (pkg : Option Json) (name : String) : Option Json :=
  optGet (optGet pkg "devDependencies") name

/-- The `desktopFrameworks` table and the `Object.entries(...).find(...)`
lookup: the first entry (in declaration order electron, tauri, nwjs) whose
value is truthy.  The tauri entry reads only `dependencies` in the source;
the nwjs entry is keyed `nwjs` but reads the package name `nw`. -/
def detectedFramework (pkg : Option Json) : Option String :=
  if jsTruthy (dep pkg "electron") || jsTruthy (devDep pkg "electron") then some "electron"
  else if jsTruthy (dep pkg "@tauri-apps/api") || jsTruthy (dep pkg "@tauri-apps/cli") then some "tauri"
  else if jsTruthy (dep pkg "nw") || jsTruthy (devDep pkg "nw") then some "nwjs"
  else none

/-- Rule 2 predicate: `/ipcMain\.|ipcRenderer\.|ipc\./` on any content. -/
def hasIPC (repoFiles : List RepoFile) : Bool :=
  repoFiles.any (fun f =>
    strHasSub f.content "ipcMain." || strHasSub f.content "ipcRenderer." ||
      strHasSub f.content "ipc.")

/-- Rule 3 positive flag: a recognized server package in `dependencies`, or
a framework-instantiation pattern in some file. -/
def hasHttpServer (repoFiles : List RepoFile) (pkg : Option Json) : Bool :=
  jsTruthy (dep pkg "express") || jsTruthy (dep pkg "fastify") ||
    jsTruthy (dep pkg "koa") || jsTruthy (dep pkg "@hapi/hapi") ||
    jsTruthy (dep pkg "hono") ||
    repoFiles.any (fun f =>
      strHasSub f.content "express()" || strHasSub f.content "new Fastify" ||
        strHasSub f.content "new Hono")

/-- Rule 4 positive flag: an auth package in `dependencies`, or an auth
call pattern in some file. -/
def hasAuth (repoFiles : List RepoFile) (pkg : Option Json) : Bool :=
  jsTruthy (dep pkg "passport") || jsTruthy (dep pkg "jsonwebtoken") ||
    jsTruthy (dep pkg "express-session") || jsTruthy (dep pkg "next-auth") ||
    repoFiles.any (fun f =>
      strHasSub f.content "passport.authenticate" || strHasSub f.content "jwt.sign" ||
        strHasSub f.content "bcrypt.hash")

/-- Rule 5 predicate: a global mutable `...Data` binding with no
user-isolation pattern in the same file. -/
def hasSingleUserState (repoFiles : List RepoFile) : Bool :=
  repoFiles.any (fun f =>
    letDataTest f.content &&
      !(strHasSub f.content "userId" || strHasSub f.content "user_id" ||
          strHasSub f.content "req.user"))

/-- Rule 6 predicate: an embedded-SQLite package or instantiation. -/
def hasSQLite (repoFiles : List RepoFile) (pkg : Option Json) : Bool :=
  jsTruthy (dep pkg "sqlite3") || jsTruthy (dep pkg "better-sqlite3") ||
    repoFiles.any (fun f => strHasSub f.content "new sqlite3.Database")

/-- Rule 7 predicate: a filesystem write call in a file whose path is not
under `node_modules`. -/
def hasFileStorage (repoFiles : List RepoFile) : Bool :=
  repoFiles.any (fun f =>
    (strHasSub f.content "fs.writeFile" || strHasSub f.content "fs.writeFileSync") &&
      !strHasSub f.path "node_modules")

/-- Rule 8 predicate: a four-digit port literal in a `.listen(...)` call in
a file that never reads `process.env.PORT`. -/
def hasHardcodedPort (repoFiles : List RepoFile) : Bool :=
  repoFiles.any (fun f =>
    listenTest f.content && !strHasSub f.content "process.env.PORT")

/-- Rule 9 positive flag: a quoted `/health` or `/healthz` literal. -/
def hasHealthCheck (repoFiles : List RepoFile) : Bool :=
  repoFiles.any (fun f =>
    quotedRouteTest "/health" f.content || quotedRouteTest "/healthz" f.content)

/-- Rule 10 positive flag: the `cors` package or a `cors()` call. -/
def hasCORS (repoFiles : List RepoFile) (pkg : Option Json) : Bool :=
  jsTruthy (dep pkg "cors") || repoFiles.any (fun f => strHasSub f.content "cors()")

/-- Apply one non-instant-fail rule to the running `(score, issues)` state.
Rules 2 and 3 pass `dynBlocker := true` and record `blocker = (score < 30)`
with the score already decremented, exactly as the source's
`score -= w; issues.push({... blocker: score < 30})`; every later rule
passes `dynBlocker := false` and records the source's literal
`blocker: false`. -/
def applyRule (st : Int × List PortabilityIssue) (cond : Bool) (w : Int)
    (cat desc : String) (dynBlocker : Bool) : Int × List PortabilityIssue :=
  if cond then
    let s := st.1 - w
    (s, st.2 ++ [⟨cat, w, desc, if dynBlocker then decide (s < 30) else false⟩])
  else st

/-- Rules 2 through 10 in source order as a function of the nine firing
conditions, threading the mutable `score`/`issues` of the source as a state
pair starting from `(100, [])`. -/
def runRules (cIPC cNoHttp cNoAuth cSingle cSQLite cStorage cPort cNoHealth cNoCORS : Bool) :
    Int × List PortabilityIssue :=
  let st := ((100 : Int), ([] : List PortabilityIssue))
  let st := applyRule st cIPC 50 "communication"
    "IPC (Inter-Process Communication) detected. Web apps use HTTP, not IPC." true
  let st := applyRule st cNoHttp 40 "infrastructure"
    "No HTTP server framework detected. Azure App Service requires HTTP server." true
  let st := applyRule st cNoAuth 30 "security"
    "No authentication system detected. Web apps need user authentication." false
  let st := applyRule st cSingle 25 "architecture"
    "Single-user global state detected. Web apps need multi-user isolation." false
  let st := applyRule st cSQLite 15 "database"
    "SQLite database detected. Azure needs cloud database (SQL, PostgreSQL, etc.)." false
  let st := applyRule st cStorage 15 "storage"
    "Local file storage detected. Azure needs Blob Storage for persistence." false
  let st := applyRule st cPort 10 "config"
    "Hardcoded port detected. Azure requires process.env.PORT." false
  let st := applyRule st cNoHealth 10 "monitoring"
    "No health check endpoint. Azure needs /health for monitoring." false
  let st := applyRule st cNoCORS 5 "config"
    "No CORS configuration detected. May be needed for frontend." false
  st

/-- Rules 2 through 10 applied to the detections, with each rule's firing
condition written as in the source (`if (hasIPC)`, `if (!hasHttpServer)`,
`if (!hasAuth && hasHttpServer)`, ...). -/
def calcScoreIssues (repoFiles : List RepoFile) (pkg : Option Json) :
    Int × List PortabilityIssue :=
  runRules
    (hasIPC repoFiles)
    (!hasHttpServer repoFiles pkg)
    (!hasAuth repoFiles pkg && hasHttpServer repoFiles pkg)
    (hasSingleUserState repoFiles)
    (hasSQLite repoFiles pkg)
    (hasFileStorage repoFiles)
    (hasHardcodedPort repoFiles && hasHttpServer repoFiles pkg)
    (!hasHealthCheck repoFiles && hasHttpServer repoFiles pkg)
    (!hasCORS repoFiles pkg && hasHttpServer repoFiles pkg)

/-- The severity ternary `score < 30 ? BLOCKING : score < 50 ? WARNING : OK`. -/
def severityOf (score : Int) : Severity :=
  if score < 30 then Severity.BLOCKING
  else if score < 50 then Severity.WARNING
  else Severity.OK

/-- `issues.map(i => `• ${i.description}`).join('\n')`. -/
def joinBullets (l : List PortabilityIssue) : String :=
  String.intercalate "\n" (l.map (fun i => "• " ++ i.description))

/-- Description of the instant-fail issue, with the framework key spliced in. -/
def instantFailDescription (fw : String) : String :=
  "Desktop application framework detected (" ++ fw ++ "). " ++
    "Desktop apps cannot run on Azure App Service web platform."

/-- Recommendation of the instant-fail result, with the framework key
spliced in. -/
def instantFailRecommendation (fw : String) : String :=
  "❌ CANNOT PORT: This is a " ++ fw ++ " desktop application.\n\n" ++
    "Desktop applications use fundamentally different architectures than web applications:\n" ++
    "• Desktop: Process-based, IPC communication, native windows, single-user\n" ++
    "• Web: Request-based, HTTP communication, browser-based, multi-user\n\n" ++
    "Azure App Service hosts web applications, not desktop applications.\n\n" ++
    "RECOMMENDED ACTION:\n" ++
    "Build a new Azure-native web application from scratch instead of porting.\n\n" ++
    "Why rebuild is better:\n" ++
    "✅ Proper web architecture from the start\n" ++
    "✅ Faster than trying to convert desktop → web\n" ++
    "✅ Better performance and scalability\n" ++
    "✅ Cleaner codebase without architectural compromises\n\n" ++
    "Estimated effort:\n" ++
    "• Porting + fixing: 60-100 hours (30% success rate)\n" ++
    "• Rebuilding fresh: 40-60 hours (100% success rate)\n\n" ++
    "The platform-readiness tool cannot generate a functional patch for this application."

/-- The terminal result returned from inside the instant-fail branch. -/
def instantFailResult (fw : String) : PortabilityResult :=
  { score := 0
    canPort := false
    severity := Severity.BLOCKING
    issues := [⟨"architecture", 100, instantFailDescription fw, true⟩]
    recommendation := instantFailRecommendation fw
    estimatedEffort := "Cannot be automated - Complete rewrite required (40-60 hours)" }

/-- The final-result section: clamp, derive `canPort` and `severity`, and
synthesize the tier-specific narrative strings. -/
def finalizeResult (st : Int × List PortabilityIssue) : PortabilityResult :=
  let score := max 0 st.1
  let issues := st.2
  let canPort := decide (score ≥ 50)
  let severity := severityOf score
  let recommendation :=
    if score < 30 then
      "❌ CANNOT PORT (Score: " ++ toString score ++ "/100)\n\n" ++
        "This application has fundamental architectural incompatibilities with Azure App Service.\n\n" ++
        "Critical issues found:\n" ++ joinBullets (issues.filter (fun i => i.blocker)) ++ "\n\n" ++
        "RECOMMENDED ACTION:\n" ++
        "Build a new Azure-native web application from scratch.\n\n" ++
        "This will be faster and result in better architecture than attempting to port."
    else if score < 50 then
      "⚠️  HIGH EFFORT REQUIRED (Score: " ++ toString score ++ "/100)\n\n" ++
        "This application can technically be ported, but will require significant manual work.\n\n" ++
        "Issues to address:\n" ++ joinBullets issues ++ "\n\n" ++
        "OPTIONS:\n" ++
        "1. Use porter + extensive manual fixes (recommended if close to 50)\n" ++
        "2. Rebuild as Azure-native app (recommended if below 40)\n\n" ++
        "Consider: Is it worth the effort to port, or faster to rebuild?"
    else
      "✅ CAN PORT (Score: " ++ toString score ++ "/100)\n\n" ++
        "This application is suitable for automated porting with minor manual cleanup.\n\n" ++
        "Issues to address:\n" ++ joinBullets issues ++ "\n\n" ++
        "The porter will handle most changes automatically.\n" ++
        "Manual work needed: " ++ toString (issues.length * 2) ++ "-" ++
        toString (issues.length * 4) ++ " hours estimated."
  let estimatedEffort :=
    if score < 30 then
      "Cannot automate - Complete rewrite required (40-80 hours)"
    else if score < 50 then
      "Porter helps, but 30-50 hours manual work required"
    else
      "Porter automates most changes - " ++ toString (issues.length * 2) ++ "-" ++
        toString (issues.length * 4) ++ " hours manual work"
  { score := score
    canPort := canPort
    severity := severity
    issues := issues
    recommendation := recommendation
    estimatedEffort := estimatedEffort }

/-- Everything after the manifest parse: the instant-fail check, then the
nine additive rules and result synthesis. -/
def buildResult (repoFiles : List RepoFile) (pkg : Option Json) : PortabilityResult :=
  match detectedFramework pkg with
  | some fw => instantFailResult fw
  | none => finalizeResult (calcScoreIssues repoFiles pkg)

/-- The embedding of `calculatePortabilityScore`.  The source calls
`JSON.parse(packageJson.content)` with no surrounding `try`, so a manifest
that fails to parse makes the whole call throw: that is `Except.error`
here. -/
def calculatePortabilityScore (repoFiles : List RepoFile) :
    Except String PortabilityResult :=
  match repoFiles.find? (fun f => f.path == "package.json") with
  | some f =>
      match Json.parse f.content with
      | none => Except.error "SyntaxError: Unexpected token in JSON"
      | some v => Except.ok (buildResult repoFiles (some v))
  | none => Except.ok (buildResult repoFiles none)

/-- The manifest value actually fed to the rules: the parse of the first
file whose path is exactly `package.json`, if both exist. -/
def manifestOf (repoFiles : List RepoFile) : Option Json :=
  (repoFiles.find? (fun f => f.path == "package.json")).bind (fun f => Json.parse f.content)

/-- Sum of the `impact` fields of an issue list. -/
def sumImpacts (issues : List PortabilityIssue) : Int :=
  (issues.map (fun i => i.impact)).sum

/-- Total deduction of the nine additive rules as a function of their
firing conditions. -/
def chainSum (cIPC cNoHttp cNoAuth cSingle cSQLite cStorage cPort cNoHealth cNoCORS : Bool) : Int :=
  (if cIPC then 50 else 0) + (if cNoHttp then 40 else 0) + (if cNoAuth then 30 else 0) +
    (if cSingle then 25 else 0) + (if cSQLite then 15 else 0) + (if cStorage then 15 else 0) +
    (if cPort then 10 else 0) + (if cNoHealth then 10 else 0) + (if cNoCORS then 5 else 0)

/-- A successful scoring call returns exactly the post-parse pipeline
applied to the parsed manifest. -/
lemma ok_eq_buildResult {repoFiles : List RepoFile} {r : PortabilityResult}
    (h : calculatePortabilityScore repoFiles = Except.ok r) :
    r = buildResult repoFiles (manifestOf repoFiles) := by
  unfold calculatePortabilityScore at h
  unfold manifestOf
  cases hf : repoFiles.find? (fun f => f.path == "package.json") with
  | none => rw [hf] at h; simpa using (Except.ok.inj h).symm
  | some f =>
      rw [hf] at h
      cases hp : Json.parse f.content with
      | none => simp [hp] at h
      | some v =>
          simp only [hp] at h
          simp only [Option.some_bind, hp]
          exact (Except.ok.inj h).symm

/-- The running score equals 100 minus the recorded impacts, over all 512
combinations of firing conditions. -/
lemma runRules_fst_eq_sumImpacts :
    ∀ c1 c2 c3 c4 c5 c6 c7 c8 c9 : Bool,
      (runRules c1 c2 c3 c4 c5 c6 c7 c8 c9).1 =
        100 - sumImpacts (runRules c1 c2 c3 c4 c5 c6 c7 c8 c9).2 := by decide

/-- The running score equals 100 minus the weight sum of the fired rules. -/
lemma runRules_fst_eq_chainSum :
    ∀ c1 c2 c3 c4 c5 c6 c7 c8 c9 : Bool,
      (runRules c1 c2 c3 c4 c5 c6 c7 c8 c9).1 =
        100 - chainSum c1 c2 c3 c4 c5 c6 c7 c8 c9 := by decide

/-- The running score never exceeds its starting value. -/
lemma runRules_fst_le :
    ∀ c1 c2 c3 c4 c5 c6 c7 c8 c9 : Bool,
      (runRules c1 c2 c3 c4 c5 c6 c7 c8 c9).1 ≤ 100 := by decide

/-- Blocker flags produced by the nine additive rules: false everywhere
except on the no-HTTP-server issue (the only one of impact 40) when the
IPC rule fired just before it. -/
lemma runRules_blocker :
    ∀ c1 c2 c3 c4 c5 c6 c7 c8 c9 : Bool,
      ∀ i ∈ (runRules c1 c2 c3 c4 c5 c6 c7 c8 c9).2,
        i.blocker = (decide (i.impact = 40) && c1) := by decide

/-- One summand of `chainSum` is monotone in its firing condition. -/
lemma iteW_mono {a b : Bool} (w : Int) (hw : 0 ≤ w) (h : a = true → b = true) :
    (if a then w else 0) ≤ (if b then w else 0) := by
  cases a with
  | false => cases b <;> simp [hw]
  | true => simp [h rfl]

/-- Projections of the final-result assembly. -/
lemma finalizeResult_score (st : Int × List PortabilityIssue) :
    (finalizeResult st).score = max 0 st.1 := rfl

lemma finalizeResult_issues (st : Int × List PortabilityIssue) :
    (finalizeResult st).issues = st.2 := rfl

lemma finalizeResult_severity (st : Int × List PortabilityIssue) :
    (finalizeResult st).severity = severityOf (max 0 st.1) := rfl

lemma finalizeResult_canPort (st : Int × List PortabilityIssue) :
    (finalizeResult st).canPort = decide (max 0 st.1 ≥ 50) := rfl

/-- The severity ternary agrees with the three threshold bands. -/
lemma severityOf_spec (s : Int) :
    ((severityOf s = Severity.BLOCKING) ↔ s < 30) ∧
      ((severityOf s = Severity.WARNING) ↔ (30 ≤ s ∧ s < 50)) ∧
      ((severityOf s = Severity.OK) ↔ 50 ≤ s) := by
  unfold severityOf
  split_ifs with h1 h2 <;> simp <;> omega

/-- Post-parse pipeline when no desktop framework is detected. -/
lemma buildResult_none {repoFiles : List RepoFile} {pkg : Option Json}
    (h : detectedFramework pkg = none) :
    buildResult repoFiles pkg = finalizeResult (calcScoreIssues repoFiles pkg) := by
  unfold buildResult; rw [h]

/-- Post-parse pipeline when a desktop framework is detected. -/
lemma buildResult_some {repoFiles : List RepoFile} {pkg : Option Json} {fw : String}
    (h : detectedFramework pkg = some fw) :
    buildResult repoFiles pkg = instantFailResult fw := by
  unfold buildResult; rw [h]

/-- Both branches of the pipeline produce a nonnegative score. -/
lemma buildResult_score_nonneg (repoFiles : List RepoFile) (pkg : Option Json) :
    0 ≤ (buildResult repoFiles pkg).score := by
  cases hdet : detectedFramework pkg with
  | some fw => rw [buildResult_some hdet]; norm_num [instantFailResult]
  | none => rw [buildResult_none hdet, finalizeResult_score]; exact le_max_left 0 _

/-- Both branches of the pipeline produce a score of at most 100. -/
lemma buildResult_score_le (repoFiles : List RepoFile) (pkg : Option Json) :
    (buildResult repoFiles pkg).score ≤ 100 := by
  cases hdet : detectedFramework pkg with
  | some fw => rw [buildResult_some hdet]; norm_num [instantFailResult]
  | none =>
      rw [buildResult_none hdet, finalizeResult_score]
      apply max_le (by norm_num)
      unfold calcScoreIssues
      exact runRules_fst_le _ _ _ _ _ _ _ _ _

/-- C7: on the empty file list `calculatePortabilityScore` returns score
60, `canPort` true, severity `OK`, and exactly the single no-HTTP-server
issue of category `infrastructure` and impact 40. -/
theorem empty_repo_scores_sixty :
    (calculatePortabilityScore []).map
        (fun r => (r.score, r.canPort, r.severity, r.issues)) =
      Except.ok ((60 : Int), true, Severity.OK,
        [⟨"infrastructure", 40,
          "No HTTP server framework detected. Azure App Service requires HTTP server.",
          false⟩]) := by
  rfl

/-- C9: two invocations of `calculatePortabilityScore` on the same file
list return field-for-field identical results. -/
theorem scoring_deterministic (repoFiles : List RepoFile) (r1 r2 : PortabilityResult)
    (h1 : calculatePortabilityScore repoFiles = Except.ok r1)
    (h2 : calculatePortabilityScore repoFiles = Except.ok r2) :
    r1.score = r2.score ∧ r1.canPort = r2.canPort ∧ r1.severity = r2.severity ∧
      r1.issues = r2.issues ∧ r1.recommendation = r2.recommendation ∧
      r1.estimatedEffort = r2.estimatedEffort ∧ r1 = r2 := by
  have h : r1 = r2 := Except.ok.inj (h1.symm.trans h2)
  subst h
  exact ⟨rfl, rfl, rfl, rfl, rfl, rfl, rfl⟩

/-- Witness for C9 at the empty file list. -/
theorem scoring_deterministic_witness :
    calculatePortabilityScore [] = Except.ok (buildResult [] (manifestOf [])) ∧
      (buildResult [] (manifestOf [])).score = (buildResult [] (manifestOf [])).score ∧
      (buildResult [] (manifestOf [])).canPort = (buildResult [] (manifestOf [])).canPort ∧
      (buildResult [] (manifestOf [])).severity = (buildResult [] (manifestOf [])).severity ∧
      (buildResult [] (manifestOf [])).issues = (buildResult [] (manifestOf [])).issues ∧
      (buildResult [] (manifestOf [])).recommendation = (buildResult [] (manifestOf [])).recommendation ∧
      (buildResult [] (manifestOf [])).estimatedEffort = (buildResult [] (manifestOf [])).estimatedEffort ∧
      buildResult [] (manifestOf []) = buildResult [] (manifestOf []) :=
  ⟨rfl, scoring_deterministic [] (buildResult [] (manifestOf [])) (buildResult [] (manifestOf [])) rfl rfl⟩

/-- C5: every returned score lies between 0 and 100. -/
theorem score_bounds (repoFiles : List RepoFile) (r : PortabilityResult)
    (h : calculatePortabilityScore repoFiles = Except.ok r) :
    0 ≤ r.score ∧ r.score ≤ 100 := by
  have hb := ok_eq_buildResult h
  subst hb
  exact ⟨buildResult_score_nonneg _ _, buildResult_score_le _ _⟩

/-- Witness for C5 at the empty file list. -/
theorem score_bounds_witness :
    calculatePortabilityScore [] = Except.ok (buildResult [] (manifestOf [])) ∧
      0 ≤ (buildResult [] (manifestOf [])).score ∧
      (buildResult [] (manifestOf [])).score ≤ 100 :=
  ⟨rfl, score_bounds [] (buildResult [] (manifestOf [])) rfl⟩

/-- C3: severity is a pure function of the score with thresholds 30 and
50, and `canPort` is exactly `score ≥ 50`. -/
theorem severity_pure_function_of_score (repoFiles : List RepoFile) (r : PortabilityResult)
    (h : calculatePortabilityScore repoFiles = Except.ok r) :
    ((r.severity = Severity.BLOCKING) ↔ r.score < 30) ∧
      ((r.severity = Severity.WARNING) ↔ (30 ≤ r.score ∧ r.score < 50)) ∧
      ((r.severity = Severity.OK) ↔ 50 ≤ r.score) ∧
      ((r.canPort = true) ↔ 50 ≤ r.score) := by
  have hb := ok_eq_buildResult h
  subst hb
  cases hdet : detectedFramework (manifestOf repoFiles) with
  | some fw =>
      rw [buildResult_some hdet]
      refine ⟨?_, ?_, ?_, ?_⟩ <;> simp [instantFailResult]
  | none =>
      rw [buildResult_none hdet, finalizeResult_severity, finalizeResult_score,
        finalizeResult_canPort]
      obtain ⟨s1, s2, s3⟩ := severityOf_spec (max 0 (calcScoreIssues repoFiles (manifestOf repoFiles)).1)
      exact ⟨s1, s2, s3, by simp [ge_iff_le, decide_eq_true_eq]⟩

/-- Witness for C3 at the empty file list (score 60, severity `OK`). -/
theorem severity_pure_function_of_score_witness :
    calculatePortabilityScore [] = Except.ok (buildResult [] (manifestOf [])) ∧
      (((buildResult [] (manifestOf [])).severity = Severity.BLOCKING) ↔
        (buildResult [] (manifestOf [])).score < 30) ∧
      (((buildResult [] (manifestOf [])).severity = Severity.WARNING) ↔
        (30 ≤ (buildResult [] (manifestOf [])).score ∧ (buildResult [] (manifestOf [])).score < 50)) ∧
      (((buildResult [] (manifestOf [])).severity = Severity.OK) ↔
        50 ≤ (buildResult [] (manifestOf [])).score) ∧
      (((buildResult [] (manifestOf [])).canPort = true) ↔
        50 ≤ (buildResult [] (manifestOf [])).score) :=
  ⟨rfl, severity_pure_function_of_score [] (buildResult [] (manifestOf [])) rfl⟩

/-- C10: the returned score is always `max 0 (100 - sum of issue
impacts)`. -/
theorem score_accounting_invariant (repoFiles : List RepoFile) (r : PortabilityResult)
    (h : calculatePortabilityScore repoFiles = Except.ok r) :
    r.score = max 0 (100 - sumImpacts r.issues) := by
  have hb := ok_eq_buildResult h
  subst hb
  cases hdet : detectedFramework (manifestOf repoFiles) with
  | some fw =>
      rw [buildResult_some hdet]
      norm_num [instantFailResult, sumImpacts]
  | none =>
      rw [buildResult_none hdet, finalizeResult_score, finalizeResult_issues]
      unfold calcScoreIssues
      rw [runRules_fst_eq_sumImpacts]

/-- Witness for C10 at the empty file list. -/
theorem score_accounting_invariant_witness :
    calculatePortabilityScore [] = Except.ok (buildResult [] (manifestOf [])) ∧
      (buildResult [] (manifestOf [])).score =
        max 0 (100 - sumImpacts (buildResult [] (manifestOf [])).issues) :=
  ⟨rfl, score_accounting_invariant [] (buildResult [] (manifestOf [])) rfl⟩

/-- With the HTTP-server flag off, the four gated rules contribute nothing
and the no-HTTP-server rule fires exactly once, over all 16 combinations
of the remaining conditions. -/
lemma runRules_gated :
    ∀ c1 c4 c5 c6 : Bool,
      (∀ i ∈ (runRules c1 true false c4 c5 c6 false false false).2,
          i.impact ≠ 30 ∧ i.impact ≠ 10 ∧ i.impact ≠ 5) ∧
        ((runRules c1 true false c4 c5 c6 false false false).2.filter
            (fun i => i.impact == 40)).length = 1 := by decide

/-- C6: when no web-server framework is detected, the auth (30), port
(10), health (10) and CORS (5) rules emit no issue, and (outside the
instant-fail branch) the only web-related deduction is the single
no-HTTP-server issue of impact 40. -/
theorem http_gated_rules_silent_without_server (repoFiles : List RepoFile)
    (r : PortabilityResult)
    (h : calculatePortabilityScore repoFiles = Except.ok r)
    (hs : hasHttpServer repoFiles (manifestOf repoFiles) = false) :
    (∀ i ∈ r.issues, i.impact ≠ 30 ∧ i.impact ≠ 10 ∧ i.impact ≠ 5) ∧
      (detectedFramework (manifestOf repoFiles) = none →
        (r.issues.filter (fun i => i.impact == 40)).length = 1) := by
  have hb := ok_eq_buildResult h
  subst hb
  cases hdet : detectedFramework (manifestOf repoFiles) with
  | some fw =>
      rw [buildResult_some hdet]
      constructor
      · intro i hi
        simp only [instantFailResult, List.mem_singleton] at hi
        subst hi
        refine ⟨?_, ?_, ?_⟩ <;> norm_num
      · intro hnone; simp [hdet] at hnone
  | none =>
      rw [buildResult_none hdet, finalizeResult_issues]
      unfold calcScoreIssues
      rw [hs]
      simp only [Bool.not_false, Bool.and_false]
      exact ⟨(runRules_gated _ _ _ _).1, fun _ => (runRules_gated _ _ _ _).2⟩

/-- Witness for C6 at the empty file list (no server detected there). -/
theorem http_gated_rules_silent_without_server_witness :
    calculatePortabilityScore [] = Except.ok (buildResult [] (manifestOf [])) ∧
      hasHttpServer [] (manifestOf []) = false ∧
      (∀ i ∈ (buildResult [] (manifestOf [])).issues,
          i.impact ≠ 30 ∧ i.impact ≠ 10 ∧ i.impact ≠ 5) ∧
      (detectedFramework (manifestOf []) = none →
        ((buildResult [] (manifestOf [])).issues.filter
            (fun i => i.impact == 40)).length = 1) :=
  ⟨rfl, rfl, http_gated_rules_silent_without_server [] (buildResult [] (manifestOf [])) rfl rfl⟩

/-- A repository whose manifest declares `express` and whose code contains
an IPC call: the auth rule fires at running score 20 yet records
`blocker: false`. -/
def exPressIPC : List RepoFile :=
  [⟨"package.json", "\x7b\"dependencies\":\x7b\"express\":\"^4.18.0\"\x7d\x7d", "file"⟩,
   ⟨"main.js", "ipcRenderer.send(x)", "file"⟩]

/-- C4 counterexample: on `exPressIPC` the cumulative deductions at the
auth issue are 50 + 30 = 80, so the running score 20 is already below 30,
yet the recorded issue list is `[(50, false), (30, false), (10, false),
(5, false)]`: the auth issue (impact 30) carries `blocker = false`, not
`true` as the claim requires. -/
theorem auth_issue_blocker_static_false :
    (calculatePortabilityScore exPressIPC).map
        (fun r => r.issues.map (fun i => (i.impact, i.blocker))) =
      Except.ok [((50 : Int), false), (30, false), (10, false), (5, false)] ∧
      (100 : Int) - 50 - 30 < 30 :=
  ⟨rfl, by norm_num⟩

/-- C4 as amended: only the IPC and no-HTTP-server rules compute `blocker`
from the running score (`score < 30` after their own deduction); since the
IPC issue is created at running score 50 its flag is always false, the
no-HTTP-server issue's flag is true exactly when the IPC rule fired, and
every later rule hard-codes `blocker: false`.  Equivalently: a
non-instant-fail issue has `blocker = true` iff it is the impact-40 issue
and `hasIPC` holds. -/
theorem blocker_flag_characterization (repoFiles : List RepoFile) (r : PortabilityResult)
    (h : calculatePortabilityScore repoFiles = Except.ok r) :
    ∀ i ∈ r.issues, i.impact ≠ 100 →
      i.blocker = (decide (i.impact = 40) && hasIPC repoFiles) := by
  have hb := ok_eq_buildResult h
  subst hb
  cases hdet : detectedFramework (manifestOf repoFiles) with
  | some fw =>
      intro i hi himp
      rw [buildResult_some hdet] at hi
      simp only [instantFailResult, List.mem_singleton] at hi
      subst hi
      exact absurd rfl himp
  | none =>
      rw [buildResult_none hdet, finalizeResult_issues]
      unfold calcScoreIssues
      intro i hi _
      exact runRules_blocker _ _ _ _ _ _ _ _ _ i hi

/-- A repository with only an IPC call. -/
def exIPCOnly : List RepoFile :=
  [⟨"main.js", "ipcMain.on(x)", "file"⟩]

/-- Witness for the amended C4: on `exIPCOnly` the issue list is the IPC
issue (blocker false) and the no-HTTP-server issue (blocker true). -/
theorem blocker_flag_characterization_witness :
    calculatePortabilityScore exIPCOnly = Except.ok (buildResult exIPCOnly (manifestOf exIPCOnly)) ∧
      ∀ i ∈ (buildResult exIPCOnly (manifestOf exIPCOnly)).issues, i.impact ≠ 100 →
        i.blocker = (decide (i.impact = 40) && hasIPC exIPCOnly) :=
  ⟨rfl, blocker_flag_characterization exIPCOnly (buildResult exIPCOnly (manifestOf exIPCOnly)) rfl⟩

/-- A file list whose `package.json` content is not valid JSON. -/
def exBadManifest : List RepoFile :=
  [⟨"package.json", "not json", "file"⟩]

/-- Another file list with a malformed manifest (an unterminated object). -/
def exBraceManifest : List RepoFile :=
  [⟨"package.json", "\x7b", "file"⟩]

/-- C2 counterexample: with an unparseable `package.json` the call does not
return normally — the uncaught `JSON.parse` exception propagates, so the
embedding returns `Except.error` rather than any `PortabilityResult`. -/
theorem malformed_manifest_throws :
    calculatePortabilityScore exBadManifest =
      Except.error "SyntaxError: Unexpected token in JSON" := rfl

/-- C2 as amended: when a file with path `package.json` is present and its
content fails to parse, `calculatePortabilityScore` propagates the parse
failure (throws); only an absent `package.json` is treated as a null
manifest. -/
theorem malformed_manifest_propagates_error (repoFiles : List RepoFile) (f : RepoFile)
    (hf : List.find? (fun g => g.path == "package.json") repoFiles = some f)
    (hp : Json.parse f.content = none) :
    calculatePortabilityScore repoFiles =
      Except.error "SyntaxError: Unexpected token in JSON" := by
  unfold calculatePortabilityScore
  rw [hf]
  simp [hp]

/-- Witness for the amended C2 on `exBraceManifest`. -/
theorem malformed_manifest_propagates_error_witness :
    List.find? (fun g => g.path == "package.json") exBraceManifest =
        some ⟨"package.json", "\x7b", "file"⟩ ∧
      Json.parse "\x7b" = none ∧
      calculatePortabilityScore exBraceManifest =
        Except.error "SyntaxError: Unexpected token in JSON" :=
  ⟨rfl, rfl,
    malformed_manifest_propagates_error exBraceManifest ⟨"package.json", "\x7b", "file"⟩ rfl rfl⟩

/-- A truthy desktop-framework entry in the maps the source actually reads
makes the instant-fail lookup succeed. -/
lemma detected_of_truthy (pkg : Option Json)
    (hdet : jsTruthy (dep pkg "electron") = true ∨ jsTruthy (devDep pkg "electron") = true ∨
      jsTruthy (dep pkg "@tauri-apps/api") = true ∨ jsTruthy (dep pkg "@tauri-apps/cli") = true ∨
      jsTruthy (dep pkg "nw") = true ∨ jsTruthy (devDep pkg "nw") = true) :
    ∃ fw, detectedFramework pkg = some fw := by
  unfold detectedFramework
  split_ifs with h1 h2 h3
  · exact ⟨"electron", rfl⟩
  · exact ⟨"tauri", rfl⟩
  · exact ⟨"nwjs", rfl⟩
  · exfalso
    rcases hdet with h | h | h | h | h | h <;> simp_all

/-- A repository listing only `@tauri-apps/api`, in `devDependencies`. -/
def tauriDevFiles : List RepoFile :=
  [⟨"package.json", "\x7b\"devDependencies\":\x7b\"@tauri-apps/api\":\"1.0.0\"\x7d\x7d", "file"⟩]

/-- C1 counterexample: `tauriDevFiles` lists the native-wrapper framework
package in `devDependencies` (the lookup is truthy), yet the result has
score 60, severity `OK` and one (non-desktop) issue — not the claimed
score 0 / `BLOCKING` / single blocker issue — because the source checks
the tauri packages only in `dependencies`. -/
theorem tauri_devdep_escapes_instant_fail :
    jsTruthy (devDep (manifestOf tauriDevFiles) "@tauri-apps/api") = true ∧
      (calculatePortabilityScore tauriDevFiles).map
          (fun r => (r.score, r.severity, r.issues.length)) =
        Except.ok ((60 : Int), Severity.OK, 1) :=
  ⟨rfl, rfl⟩

/-- C1 as amended: if the manifest gives a truthy value to `electron` or
`nw` in `dependencies` or `devDependencies`, or to `@tauri-apps/api` or
`@tauri-apps/cli` in `dependencies` (tauri is not looked up in
`devDependencies`), the call returns score 0, `canPort` false, severity
`BLOCKING`, and exactly one issue — a blocker of category `architecture`
and impact 100 — regardless of any other rule conditions in the input. -/
theorem desktop_framework_instant_fail (repoFiles : List RepoFile) (r : PortabilityResult)
    (h : calculatePortabilityScore repoFiles = Except.ok r)
    (hdet : jsTruthy (dep (manifestOf repoFiles) "electron") = true ∨
      jsTruthy (devDep (manifestOf repoFiles) "electron") = true ∨
      jsTruthy (dep (manifestOf repoFiles) "@tauri-apps/api") = true ∨
      jsTruthy (dep (manifestOf repoFiles) "@tauri-apps/cli") = true ∨
      jsTruthy (dep (manifestOf repoFiles) "nw") = true ∨
      jsTruthy (devDep (manifestOf repoFiles) "nw") = true) :
    r.score = 0 ∧ r.canPort = false ∧ r.severity = Severity.BLOCKING ∧
      r.issues = [⟨"architecture", 100,
        instantFailDescription ((detectedFramework (manifestOf repoFiles)).getD ""),
        true⟩] := by
  have hb := ok_eq_buildResult h
  subst hb
  obtain ⟨fw, hfw⟩ := detected_of_truthy (manifestOf repoFiles) hdet
  rw [buildResult_some hfw, hfw]
  exact ⟨rfl, rfl, rfl, rfl⟩

/-- A repository with a truthy `electron` dependency and, additionally, an
IPC pattern that would fire another rule. -/
def exElectron : List RepoFile :=
  [⟨"package.json", "\x7b\"dependencies\":\x7b\"electron\":\"^25.0.0\"\x7d\x7d", "file"⟩,
   ⟨"main.js", "ipcMain.on(x)", "file"⟩]

/-- Witness for the amended C1 on `exElectron`: the IPC condition is also
present, and still exactly one issue is emitted. -/
theorem desktop_framework_instant_fail_witness :
    calculatePortabilityScore exElectron =
        Except.ok (buildResult exElectron (manifestOf exElectron)) ∧
      jsTruthy (dep (manifestOf exElectron) "electron") = true ∧
      hasIPC exElectron = true ∧
      (buildResult exElectron (manifestOf exElectron)).score = 0 ∧
      (buildResult exElectron (manifestOf exElectron)).canPort = false ∧
      (buildResult exElectron (manifestOf exElectron)).severity = Severity.BLOCKING ∧
      (buildResult exElectron (manifestOf exElectron)).issues = [⟨"architecture", 100,
        instantFailDescription ((detectedFramework (manifestOf exElectron)).getD ""),
        true⟩] := by
  have X := desktop_framework_instant_fail exElectron
    (buildResult exElectron (manifestOf exElectron)) rfl (Or.inl rfl)
  exact ⟨rfl, rfl, rfl, X.1, X.2.1, X.2.2.1, X.2.2.2⟩

/-- C8: if every rule-firing condition that holds of input A also holds of
input B (each rule taken with its full firing condition, gating included),
then B's score is at most A's. -/
theorem score_monotone_in_fired_rules (fA fB : List RepoFile) (rA rB : PortabilityResult)
    (hA : calculatePortabilityScore fA = Except.ok rA)
    (hB : calculatePortabilityScore fB = Except.ok rB)
    (hDesk : detectedFramework (manifestOf fA) ≠ none →
      detectedFramework (manifestOf fB) ≠ none)
    (hIPCm : hasIPC fA = true → hasIPC fB = true)
    (hHttpm : (!hasHttpServer fA (manifestOf fA)) = true →
      (!hasHttpServer fB (manifestOf fB)) = true)
    (hAuthm : (!hasAuth fA (manifestOf fA) && hasHttpServer fA (manifestOf fA)) = true →
      (!hasAuth fB (manifestOf fB) && hasHttpServer fB (manifestOf fB)) = true)
    (hSinglem : hasSingleUserState fA = true → hasSingleUserState fB = true)
    (hSQLm : hasSQLite fA (manifestOf fA) = true → hasSQLite fB (manifestOf fB) = true)
    (hStoragem : hasFileStorage fA = true → hasFileStorage fB = true)
    (hPortm : (hasHardcodedPort fA && hasHttpServer fA (manifestOf fA)) = true →
      (hasHardcodedPort fB && hasHttpServer fB (manifestOf fB)) = true)
    (hHealthm : (!hasHealthCheck fA && hasHttpServer fA (manifestOf fA)) = true →
      (!hasHealthCheck fB && hasHttpServer fB (manifestOf fB)) = true)
    (hCORSm : (!hasCORS fA (manifestOf fA) && hasHttpServer fA (manifestOf fA)) = true →
      (!hasCORS fB (manifestOf fB) && hasHttpServer fB (manifestOf fB)) = true) :
    rB.score ≤ rA.score := by
  have hbA := ok_eq_buildResult hA
  have hbB := ok_eq_buildResult hB
  subst hbA
  subst hbB
  cases hdB : detectedFramework (manifestOf fB) with
  | some fw =>
      rw [buildResult_some hdB]
      calc (instantFailResult fw).score = 0 := rfl
        _ ≤ (buildResult fA (manifestOf fA)).score := buildResult_score_nonneg _ _
  | none =>
      have hdA : detectedFramework (manifestOf fA) = none := by
        cases hx : detectedFramework (manifestOf fA) with
        | none => rfl
        | some fw => exact absurd hdB (hDesk (by simp [hx]))
      rw [buildResult_none hdA, buildResult_none hdB, finalizeResult_score,
        finalizeResult_score]
      unfold calcScoreIssues
      rw [runRules_fst_eq_chainSum, runRules_fst_eq_chainSum]
      apply max_le_max le_rfl
      apply sub_le_sub_left
      unfold chainSum
      refine add_le_add (add_le_add (add_le_add (add_le_add (add_le_add (add_le_add
        (add_le_add (add_le_add ?_ ?_) ?_) ?_) ?_) ?_) ?_) ?_) ?_
      · exact iteW_mono 50 (by norm_num) hIPCm
      · exact iteW_mono 40 (by norm_num) hHttpm
      · exact iteW_mono 30 (by norm_num) hAuthm
      · exact iteW_mono 25 (by norm_num) hSinglem
      · exact iteW_mono 15 (by norm_num) hSQLm
      · exact iteW_mono 15 (by norm_num) hStoragem
      · exact iteW_mono 10 (by norm_num) hPortm
      · exact iteW_mono 10 (by norm_num) hHealthm
      · exact iteW_mono 5 (by norm_num) hCORSm

/-- A repository with a single IPC-bearing file. -/
def exMonoB : List RepoFile :=
  [⟨"app.js", "ipcRenderer.send(x)", "file"⟩]

/-- Witness for C8: `exMonoB` adds the IPC condition to the empty input
and scores 10 against the empty input's 60. -/
theorem score_monotone_in_fired_rules_witness :
    calculatePortabilityScore [] = Except.ok (buildResult [] (manifestOf [])) ∧
      calculatePortabilityScore exMonoB = Except.ok (buildResult exMonoB (manifestOf exMonoB)) ∧
      hasIPC [] = false ∧ hasIPC exMonoB = true ∧
      (buildResult exMonoB (manifestOf exMonoB)).score ≤
        (buildResult [] (manifestOf [])).score :=
  ⟨rfl, rfl, rfl, rfl,
    score_monotone_in_fired_rules [] exMonoB
      (buildResult [] (manifestOf [])) (buildResult exMonoB (manifestOf exMonoB))
      rfl rfl (fun h => absurd rfl h) nofun (fun _ => rfl) nofun nofun nofun nofun
      nofun nofun nofun⟩

end PlatformReadiness
